import Mathlib

/-!
Verification of the COG best-practices notebook (src/0-single-cog.ipynb).

The repository is a single notebook that benchmarks four strategies for
reading a Cloud-Optimized GeoTIFF from S3: download-then-open, default
remote read, tuned remote read (GDAL environment variables), and a
chunked parallel read through Dask.  The owned logic is a linear
pipeline of environment-variable assignments and timed open / compute
calls into external libraries.  We embed that pipeline shallowly:

 - the data model (AccessMode, ConfigOption, TimingSample) and the
   configuration resolver are taken from the notebook cells;
 - the sequence of executable notebook cells is embedded as a concrete
   event trace, over which environment-state properties are decided;
 - the Access Strategy Runner, the dask deferred-graph semantics and the
   Report Emitter have no standalone code in the repository (the spec
   describes them as the formalization of the notebook's intent), so
   they are modelled from the spec and checked for the claimed
   properties.
-/

namespace COG

/-- Access strategies benchmarked by the notebook: download-then-open
(cells 6-8), default remote read (cells 12-15), tuned remote read
(cells 19-21), chunked parallel read via Dask (cells 25-30). -/
inductive AccessMode
  | localDownload
  | remoteDefault
  | remoteTuned
  | remoteChunked
deriving DecidableEq, Repr, Fintype

/-- One external environment setting, a name-value pair, as assigned by
the os.environ statements of notebook cell 19. -/
structure ConfigOption where
  name : String
  value : String
deriving DecidableEq, Repr

/-- The five GDAL environment assignments of notebook cell 19, in the
order the notebook performs them. -/
def tunedOptions : List ConfigOption :=
  [⟨"GDAL_DISABLE_READDIR_ON_OPEN", "EMPTY_DIR"⟩,
   ⟨"AWS_NO_SIGN_REQUEST", "YES"⟩,
   ⟨"GDAL_MAX_RAW_BLOCK_CACHE_SIZE", "200000000"⟩,
   ⟨"GDAL_SWATH_SIZE", "200000000"⟩,
   ⟨"VSI_CURL_CACHE_SIZE", "200000000"⟩]

/-- Names of the tuned settings. -/
def tunedNames : List String := tunedOptions.map ConfigOption.name

/-- Configuration resolver: the environment settings each access mode
runs under in the notebook.  The download-then-open run (cell 6) and the
default remote read (cells 12, 15) execute before cell 19 with no
environment assignment at all; the tuned read (cell 20) runs right
after the cell 19 assignments; the chunked read (cell 26) runs later in
the same process, still under the cell 19 assignments, which are never
reset. -/
def resolver : AccessMode → List ConfigOption
  | .localDownload => []
  | .remoteDefault => []
  | .remoteTuned => tunedOptions
  | .remoteChunked => tunedOptions

/-- Process environment: a partial map from variable names to values,
none meaning the variable is unset and the external library uses its
built-in default. -/
def Env : Type := String → Option String

/-- Environment with no variable set, the state before notebook cell 19
touches os.environ. -/
def initEnv : Env := fun _ => none

/-- Single os.environ assignment, last writer wins. -/
def setVar (e : Env) (k v : String) : Env :=
  fun x => if x = k then some v else e x

/-- Apply a list of configuration options in order, as the notebook
performs the cell 19 assignments top to bottom. -/
def applyConfig (opts : List ConfigOption) (e : Env) : Env :=
  opts.foldl (fun a o => setVar a o.name o.value) e

/-- Executable notebook cells as pipeline events.  An openCall is a call
into xr.open_rasterio for the given strategy, meanCall the reduction
call, computeCall the explicit dask materialization, setEnv one
os.environ assignment, and visualize the final rioxarray overview plot
(cell 33), which is not one of the four benchmarked strategies. -/
inductive Event
  | setEnv (name value : String)
  | openCall (mode : AccessMode)
  | meanCall (mode : AccessMode)
  | computeCall (mode : AccessMode)
  | visualize
deriving DecidableEq, Repr

/-- The notebook, cell by executable cell, in execution order:
cell 6 (curl + open local), cell 8 (mean), cell 12 (open url),
cell 13 (mean), cell 15 (open url + mean again), cell 19 (five
os.environ assignments), cell 20 (open url tuned), cell 21 (mean),
cell 26 (open url chunked), cell 27 (lazy mean), cell 30 (compute),
cell 33 (rioxarray overview plot). -/
def notebookTrace : List Event :=
  [Event.openCall .localDownload,
   Event.meanCall .localDownload,
   Event.openCall .remoteDefault,
   Event.meanCall .remoteDefault,
   Event.openCall .remoteDefault,
   Event.meanCall .remoteDefault,
   Event.setEnv "GDAL_DISABLE_READDIR_ON_OPEN" "EMPTY_DIR",
   Event.setEnv "AWS_NO_SIGN_REQUEST" "YES",
   Event.setEnv "GDAL_MAX_RAW_BLOCK_CACHE_SIZE" "200000000",
   Event.setEnv "GDAL_SWATH_SIZE" "200000000",
   Event.setEnv "VSI_CURL_CACHE_SIZE" "200000000",
   Event.openCall .remoteTuned,
   Event.meanCall .remoteTuned,
   Event.openCall .remoteChunked,
   Event.meanCall .remoteChunked,
   Event.computeCall .remoteChunked,
   Event.visualize]

/-- Environment state after running a list of events from a start
environment: only setEnv events mutate the environment. -/
def envAfter : List Event → Env → Env
  | [], e => e
  | Event.setEnv k v :: rest, e => envAfter rest (setVar e k v)
  | _ :: rest, e => envAfter rest e

/-- Environment in effect when the event at position i executes: the
result of the i events before it, starting from the unset environment. -/
def envAt (t : List Event) (i : Nat) : Env :=
  envAfter (t.take i) initEnv

/-- Index of the first pipeline position after the last cell 19
assignment: enumerating notebookTrace, events 6 to 10 are the five
setEnv events, so from position 11 on the tuned settings are applied. -/
def configDoneIdx : Nat := 11

/-- Uncompressed size in bytes of the test raster: a single-band
5490 x 5490 image of 4-byte pixels, the 120MB figure reported by
da.nbytes in cell 7 and the cell 0 prose. -/
def rasterBytes : Nat := 5490 * 5490 * 4

/-- Phase of a timed benchmark cell: the open of the raster handle or
the computation forcing all pixel values. -/
inductive Phase
  | phOpen
  | phCompute
deriving DecidableEq, Repr

/-- Modelled from the spec: TimingSample, the record of mode, phase in
open or compute, and elapsed duration; the notebook itself only prints
wall-clock times via a timing magic and keeps no record. -/
structure TimingSample where
  mode : AccessMode
  phase : Phase
  duration : Nat
deriving DecidableEq, Repr

/-- Modelled from the spec: RemoteAccessError, a network, auth or
decoding failure surfaced from the external raster library; the
notebook has no error handling of its own. -/
structure RemoteAccessError where
  message : String
deriving DecidableEq, Repr

/-- Modelled from the spec: outcome of one external library call inside
a timed phase, either success after a given elapsed time or a failure
carried unchanged from the library. -/
inductive LibOutcome
  | ok (cost : Nat)
  | err (e : RemoteAccessError)
deriving DecidableEq, Repr

/-- Modelled from the spec: the state threaded through Runner
invocations, a wall clock, the ordered append-only log of timing
samples, and a count of external library invocations (used to state
that no retry ever happens). -/
structure RunnerState where
  clock : Nat
  log : List TimingSample
  libCalls : Nat
deriving DecidableEq, Repr

/-- Modelled from the spec: one timed phase of the Access Strategy
Runner.  It reads the clock, makes exactly one external library call,
and on success appends one sample whose duration is the elapsed clock
difference; on failure the error is returned as is and nothing is
appended.  Either way the library was invoked exactly once. -/
def runPhase (mode : AccessMode) (phase : Phase) (outcome : LibOutcome)
    (s : RunnerState) : RunnerState × Option RemoteAccessError :=
  match outcome with
  | .ok cost =>
      ({ clock := s.clock + cost,
         log := s.log ++ [⟨mode, phase, s.clock + cost - s.clock⟩],
         libCalls := s.libCalls + 1 }, none)
  | .err e =>
      ({ clock := s.clock, log := s.log, libCalls := s.libCalls + 1 }, some e)

/-- Modelled from the spec: one Runner invocation, a timed open
followed, only if the open succeeded, by a timed compute.  A failure
aborts the current run and surfaces the library error unchanged. -/
def runner (mode : AccessMode) (openOut computeOut : LibOutcome)
    (s : RunnerState) : RunnerState × Option RemoteAccessError :=
  match runPhase mode Phase.phOpen openOut s with
  | (s1, some e) => (s1, some e)
  | (s1, none) => runPhase mode Phase.phCompute computeOut s1

/-- Modelled from the spec: the chunk layout the notebook requests in
cell 26, a dict of band 1 and 2745 x 2745 tiles, which splits the
5490 x 5490 raster into chunks of equal byte size. -/
structure ChunkGrid where
  nChunks : Nat
  chunkBytes : Nat
deriving DecidableEq, Repr

/-- The cell 26 chunk layout: four 2745 x 2745 float32 chunks. -/
def notebookGrid : ChunkGrid := ⟨4, 2745 * 2745 * 4⟩

/-- Modelled from the spec: a dask task graph as the notebook builds
one, either the lazy chunked source produced by opening with chunks, or
a deferred mean node over a subgraph produced by da.mean. -/
inductive Graph
  | source (g : ChunkGrid)
  | meanNode (sub : Graph)
deriving DecidableEq, Repr

/-- Pixel bytes a graph reads when executed: every chunk of the source
is fetched; a mean node reads whatever its input reads. -/
def execBytes : Graph → Nat
  | .source g => g.nChunks * g.chunkBytes
  | .meanNode sub => execBytes sub

/-- Modelled from the spec: time to execute a graph, one chunk fetch
per source chunk plus a reduction cost per mean node.  This is the
materialization work that compute triggers. -/
def execCost (readCost reduceCost : Nat) : Graph → Nat
  | .source g => g.nChunks * readCost
  | .meanNode sub => execCost readCost reduceCost sub + reduceCost

/-- Modelled from the spec: state of the chunked run of cells 26-30, a
wall clock, the count of pixel bytes actually fetched so far, the count
of metadata requests, the dask handle if one was opened, and the log of
timing samples. -/
structure DaskState where
  clock : Nat
  pixelBytesRead : Nat
  metadataReads : Nat
  arr : Option Graph
  log : List TimingSample
deriving DecidableEq, Repr

/-- State before cell 26 runs: nothing opened, nothing read. -/
def initDask : DaskState := ⟨0, 0, 0, none, []⟩

/-- Cell 26, xr.open_rasterio with chunks: one metadata request builds
a lazy handle over the chunk grid; no pixel data is fetched.  The cell
is timed, producing the open sample of the chunked run. -/
def openChunkedStep (metaCost : Nat) (grid : ChunkGrid) (s : DaskState) :
    DaskState :=
  { clock := s.clock + metaCost,
    pixelBytesRead := s.pixelBytesRead,
    metadataReads := s.metadataReads + 1,
    arr := some (Graph.source grid),
    log := s.log ++ [⟨AccessMode.remoteChunked, Phase.phOpen, metaCost⟩] }

/-- Cell 27, da.mean on a dask-backed array: pure task-graph
construction.  A deferred mean node is stacked on the handle, the only
cost is building the graph, and no data request of any kind is made.
The notebook times this cell at tens of microseconds, and it records no
benchmark phase. -/
def meanLazyStep (buildCost : Nat) (s : DaskState) : DaskState :=
  match s.arr with
  | some g =>
      { clock := s.clock + buildCost,
        pixelBytesRead := s.pixelBytesRead,
        metadataReads := s.metadataReads,
        arr := some (Graph.meanNode g),
        log := s.log }
  | none => s

/-- Cell 30, ave.compute: executes the deferred graph, fetching every
chunk and running the reduction; the timed duration of the cell is
exactly the execution cost of the graph.  This is the compute sample of
the chunked run. -/
def computeStep (readCost reduceCost : Nat) (s : DaskState) : DaskState :=
  match s.arr with
  | some g =>
      { clock := s.clock + execCost readCost reduceCost g,
        pixelBytesRead := s.pixelBytesRead + execBytes g,
        metadataReads := s.metadataReads,
        arr := some g,
        log := s.log ++ [⟨AccessMode.remoteChunked, Phase.phCompute,
                          execCost readCost reduceCost g⟩] }
  | none => s

/-- The chunked run of cells 26, 27 and 30 in notebook order. -/
def chunkedRun (metaCost buildCost readCost reduceCost : Nat) : DaskState :=
  computeStep readCost reduceCost
    (meanLazyStep buildCost (openChunkedStep metaCost notebookGrid initDask))

/-- Modelled from the spec: mode names accepted by the Resolver when
driven by a user-facing string choice. -/
def parseMode : String → Option AccessMode
  | "local-download" => some AccessMode.localDownload
  | "remote-default" => some AccessMode.remoteDefault
  | "remote-tuned" => some AccessMode.remoteTuned
  | "remote-chunked" => some AccessMode.remoteChunked
  | _ => none

/-- Modelled from the spec: ConfigurationError, raised exactly for an
unknown access mode string. -/
inductive ConfigurationError
  | unknownMode (s : String)
deriving DecidableEq, Repr

/-- Modelled from the spec: the Resolver on a user-facing mode string,
returning the ConfigOption set of a known mode and failing with
ConfigurationError on an unknown one. -/
def resolveNamed (s : String) :
    Except ConfigurationError (List ConfigOption) :=
  match parseMode s with
  | some m => Except.ok (resolver m)
  | none => Except.error (ConfigurationError.unknownMode s)

/-- Modelled from the spec: network events a pipeline run can emit; the
Resolver itself must emit none. -/
inductive NetEvent
  | request (url : String)
deriving DecidableEq, Repr

/-- Modelled from the spec: resolve a mode string and only then reach
the network.  An unknown mode fails before any network event is
emitted; a known mode proceeds to the open request. -/
def resolveThenConnect (s url : String) :
    List NetEvent × Except ConfigurationError (List ConfigOption) :=
  match resolveNamed s with
  | Except.error e => ([], Except.error e)
  | Except.ok opts => ([NetEvent.request url], Except.ok opts)

/-- Modelled from the spec: the grouped summary of the Report Emitter,
mapping a mode and phase to the list of recorded durations in log
order. -/
def report (samples : List TimingSample) :
    AccessMode → Phase → List Nat :=
  fun m p =>
    (samples.filter (fun s => decide (s.mode = m) && decide (s.phase = p))).map
      TimingSample.duration

/-- Modelled from the spec: the only state an emitter invocation could
carry between calls, a count of previous invocations. -/
structure EmitterWorld where
  callCount : Nat
deriving DecidableEq, Repr

/-- Modelled from the spec: an emitter invocation returns the grouped
summary of its input and the advanced world; the summary is computed
from the sample list alone. -/
def emit (w : EmitterWorld) (samples : List TimingSample) :
    (AccessMode → Phase → List Nat) × EmitterWorld :=
  (report samples, ⟨w.callCount + 1⟩)

/-- Recognizes the environment-mutating events of the pipeline. -/
def isSetEnv : Event → Bool
  | Event.setEnv _ _ => true
  | _ => false

/-- The HTTPS locator of the test COG, from notebook cell 3. -/
def notebookUrl : String :=
  "https://sentinel-s1-rtc-indigo.s3.us-west-2.amazonaws.com/tiles/RTC/1/IW/10/T/ET/2020/S1B_20200106_10TET_ASC/Gamma0_VV.tif"

/-! ## Helper lemmas -/

/-- Evaluating an applied option list at a point either ignores the base
environment or passes it through untouched. -/
theorem applyConfig_point2 (opts : List ConfigOption) (e1 e2 : Env)
    (x : String) :
    applyConfig opts e1 x = applyConfig opts e2 x ∨
      (applyConfig opts e1 x = e1 x ∧ applyConfig opts e2 x = e2 x) := by
  induction opts generalizing e1 e2 with
  | nil => exact Or.inr ⟨rfl, rfl⟩
  | cons o rest ih =>
    rcases ih (setVar e1 o.name o.value) (setVar e2 o.name o.value) with h | ⟨h1, h2⟩
    · exact Or.inl h
    · by_cases hx : x = o.name
      · refine Or.inl ?_
        rw [show applyConfig (o :: rest) e1 = applyConfig rest (setVar e1 o.name o.value) from rfl,
            show applyConfig (o :: rest) e2 = applyConfig rest (setVar e2 o.name o.value) from rfl,
            h1, h2]
        simp [setVar, hx]
      · refine Or.inr ⟨?_, ?_⟩
        · rw [show applyConfig (o :: rest) e1 = applyConfig rest (setVar e1 o.name o.value) from rfl,
              h1]
          simp [setVar, hx]
        · rw [show applyConfig (o :: rest) e2 = applyConfig rest (setVar e2 o.name o.value) from rfl,
              h2]
          simp [setVar, hx]

/-- Applying a configuration twice equals applying it once. -/
theorem applyConfig_idem (opts : List ConfigOption) (e : Env) :
    applyConfig opts (applyConfig opts e) = applyConfig opts e := by
  funext x
  rcases applyConfig_point2 opts (applyConfig opts e) e x with h | ⟨h1, _⟩
  · exact h
  · exact h1

/-! ## Claim theorems -/

/-- C9: whenever the tuned configuration is applied, the three cache
settings GDAL_MAX_RAW_BLOCK_CACHE_SIZE, GDAL_SWATH_SIZE and
VSI_CURL_CACHE_SIZE are exactly the options carrying the value
200000000, the resulting environment maps each of the three names to
that value, and 200000000 bytes strictly exceeds the 120MB uncompressed
raster, so the raw-block cache covers the full raster. -/
theorem tuned_cache_settings_cover_raster :
    (tunedOptions.filter (fun o => decide (o.value = "200000000"))).map
        ConfigOption.name =
      ["GDAL_MAX_RAW_BLOCK_CACHE_SIZE", "GDAL_SWATH_SIZE",
       "VSI_CURL_CACHE_SIZE"] ∧
    applyConfig tunedOptions initEnv "GDAL_MAX_RAW_BLOCK_CACHE_SIZE" =
      some "200000000" ∧
    applyConfig tunedOptions initEnv "GDAL_SWATH_SIZE" = some "200000000" ∧
    applyConfig tunedOptions initEnv "VSI_CURL_CACHE_SIZE" =
      some "200000000" ∧
    rasterBytes < 200000000 ∧ 120000000 ≤ rasterBytes := by
  refine ⟨by decide, by decide, by decide, by decide, by decide, by decide⟩

/-- C3 counterexample: the resolver of the remote-default mode (the
default remote read of notebook cells 12-15, which runs with no
environment assignment at all) returns the empty option set, so the
resolver does not return a non-empty set for every valid mode. -/
theorem resolver_not_nonempty_on_all_modes :
    resolver AccessMode.remoteDefault = [] ∧
      ¬ (∀ m : AccessMode, resolver m ≠ []) := by
  exact ⟨rfl, fun h => h AccessMode.remoteDefault rfl⟩

/-- C3 amended: for every valid AccessMode the resolver is a fixed
mapping (two calls yield the same option set), applying its options
twice yields the same environment as applying them once, and the
remote-tuned and remote-chunked modes yield a non-empty option set
while local-download and remote-default yield the empty set, their
runs using only the library defaults. -/
theorem resolver_deterministic_idempotent (m : AccessMode) (e : Env) :
    resolver m = resolver m ∧
    applyConfig (resolver m) (applyConfig (resolver m) e) =
      applyConfig (resolver m) e ∧
    ((m = AccessMode.remoteTuned ∨ m = AccessMode.remoteChunked) →
      resolver m ≠ []) ∧
    ((m = AccessMode.localDownload ∨ m = AccessMode.remoteDefault) →
      resolver m = []) := by
  refine ⟨rfl, applyConfig_idem _ _, ?_, ?_⟩
  · rintro (rfl | rfl) <;> simp [resolver, tunedOptions]
  · rintro (rfl | rfl) <;> rfl

/-- C3 amended witness at the remote-tuned mode. -/
theorem resolver_deterministic_idempotent_witness :
    applyConfig (resolver AccessMode.remoteTuned)
        (applyConfig (resolver AccessMode.remoteTuned) initEnv) =
      applyConfig (resolver AccessMode.remoteTuned) initEnv ∧
    resolver AccessMode.remoteTuned ≠ [] :=
  ⟨(resolver_deterministic_idempotent AccessMode.remoteTuned initEnv).2.1,
   (resolver_deterministic_idempotent AccessMode.remoteTuned
      initEnv).2.2.1 (Or.inl rfl)⟩

/-- C5: at every open call of the pipeline, every option of the
selected mode's resolved set is in effect with exactly its specified
value, and every tuned setting not belonging to that mode's set is
still unset, so no open runs under configuration other than its own
mode's settings and the tuned values exist at no point before their
mode's open. -/
theorem opens_under_own_mode_config :
    ∀ i, i < notebookTrace.length → ∀ m : AccessMode,
      notebookTrace.get? i = some (Event.openCall m) →
      (∀ o ∈ resolver m, envAt notebookTrace i o.name = some o.value) ∧
      (∀ k ∈ tunedNames, k ∉ (resolver m).map ConfigOption.name →
        envAt notebookTrace i k = none) := by
  decide

/-- C5 witness at the tuned open, pipeline position 11. -/
theorem opens_under_own_mode_config_witness :
    envAt notebookTrace 11 "GDAL_DISABLE_READDIR_ON_OPEN" =
      some "EMPTY_DIR" :=
  (opens_under_own_mode_config 11 (by decide) AccessMode.remoteTuned
      (by decide)).1
    ⟨"GDAL_DISABLE_READDIR_ON_OPEN", "EMPTY_DIR"⟩ (by decide)

/-- C10: from the first position after the cell 19 assignments to the
end of the pipeline, every tuned setting stays at exactly its assigned
value at every point (in particular the chunked open and compute run
under the tuned configuration), and no later event touches the
environment: there is no restore, clear, overwrite or exit cleanup. -/
theorem tuned_env_persists :
    (∀ i, i < notebookTrace.length + 1 → configDoneIdx ≤ i →
      ∀ o ∈ tunedOptions, envAt notebookTrace i o.name = some o.value) ∧
    (∀ ev ∈ notebookTrace.drop configDoneIdx, isSetEnv ev = false) := by
  constructor
  · decide
  · decide

/-- C10 witness at the chunked open, pipeline position 13. -/
theorem tuned_env_persists_witness :
    envAt notebookTrace 13 "VSI_CURL_CACHE_SIZE" = some "200000000" :=
  tuned_env_persists.1 13 (by decide) (by decide)
    ⟨"VSI_CURL_CACHE_SIZE", "200000000"⟩ (by decide)

/-- C1: in the chunked run, the open builds the deferred handle while
fetching no pixel data, the lazy mean still fetches none, only the
compute call materializes all chunk bytes, the recorded log holds the
open sample before the compute sample, the compute sample's duration is
exactly the cost of executing the task graph, and the whole recorded
log is independent of the graph-construction cost, so the compute
timing never covers deferred-graph construction. -/
theorem chunked_open_deferred_compute_materializes
    (metaCost buildCost readCost reduceCost : Nat) :
    (openChunkedStep metaCost notebookGrid initDask).pixelBytesRead = 0 ∧
    (openChunkedStep metaCost notebookGrid initDask).arr =
      some (Graph.source notebookGrid) ∧
    (meanLazyStep buildCost
        (openChunkedStep metaCost notebookGrid initDask)).pixelBytesRead =
      0 ∧
    (chunkedRun metaCost buildCost readCost reduceCost).pixelBytesRead =
      notebookGrid.nChunks * notebookGrid.chunkBytes ∧
    (chunkedRun metaCost buildCost readCost reduceCost).log =
      [⟨AccessMode.remoteChunked, Phase.phOpen, metaCost⟩,
       ⟨AccessMode.remoteChunked, Phase.phCompute,
        execCost readCost reduceCost
          (Graph.meanNode (Graph.source notebookGrid))⟩] ∧
    (∀ b2, (chunkedRun metaCost buildCost readCost reduceCost).log =
      (chunkedRun metaCost b2 readCost reduceCost).log) := by
  refine ⟨rfl, rfl, rfl, ?_, rfl, fun b2 => rfl⟩
  simp [chunkedRun, computeStep, meanLazyStep, openChunkedStep, initDask,
    execBytes]

/-- C2: a Runner invocation whose external calls succeed after positive
elapsed time appends exactly two timing samples to the log, the open
sample immediately before the compute sample of the same mode, both
with strictly positive duration, and reports no error. -/
theorem runner_two_positive_samples (mode : AccessMode) (c1 c2 : Nat)
    (s : RunnerState) (h1 : 0 < c1) (h2 : 0 < c2) :
    (runner mode (LibOutcome.ok c1) (LibOutcome.ok c2) s).1.log =
      s.log ++ [⟨mode, Phase.phOpen, c1⟩, ⟨mode, Phase.phCompute, c2⟩] ∧
    0 < c1 ∧ 0 < c2 ∧
    (runner mode (LibOutcome.ok c1) (LibOutcome.ok c2) s).2 = none := by
  refine ⟨?_, h1, h2, rfl⟩
  simp [runner, runPhase]

/-- C2 witness at unit costs from the empty log. -/
theorem runner_two_positive_samples_witness :
    (runner AccessMode.remoteTuned (LibOutcome.ok 1) (LibOutcome.ok 2)
        ⟨0, [], 0⟩).1.log =
      [] ++ [⟨AccessMode.remoteTuned, Phase.phOpen, 1⟩,
             ⟨AccessMode.remoteTuned, Phase.phCompute, 2⟩] ∧
    0 < 1 ∧ 0 < 2 ∧
    (runner AccessMode.remoteTuned (LibOutcome.ok 1) (LibOutcome.ok 2)
        ⟨0, [], 0⟩).2 = none :=
  runner_two_positive_samples AccessMode.remoteTuned 1 2 ⟨0, [], 0⟩
    (by decide) (by decide)

/-- C6: a library failure surfaces from the Runner as exactly the same
RemoteAccessError object, with one library invocation for the failed
open (the compute is never attempted) or one per phase when the compute
fails, so the Runner never retries and performs no local recovery. -/
theorem runner_propagates_errors_no_retry (mode : AccessMode)
    (e : RemoteAccessError) (out : LibOutcome) (c : Nat) (s : RunnerState) :
    runner mode (LibOutcome.err e) out s =
      ({ clock := s.clock, log := s.log, libCalls := s.libCalls + 1 },
       some e) ∧
    runner mode (LibOutcome.ok c) (LibOutcome.err e) s =
      ({ clock := s.clock + c,
         log := s.log ++ [⟨mode, Phase.phOpen, s.clock + c - s.clock⟩],
         libCalls := s.libCalls + 2 }, some e) := by
  constructor
  · rfl
  · simp [runner, runPhase]

/-- C7: whatever the outcomes, a Runner invocation only ever appends to
the timing log: the prior log survives unchanged as the initial segment
of the new one, and every appended sample belongs to the current mode,
so a failed run aborts only the current mode's measurement. -/
theorem log_append_only (mode : AccessMode) (o1 o2 : LibOutcome)
    (s : RunnerState) :
    ∃ t, (runner mode o1 o2 s).1.log = s.log ++ t ∧
      ∀ x ∈ t, x.mode = mode := by
  cases o1 with
  | err e => exact ⟨[], by simp [runner, runPhase], by simp⟩
  | ok c1 =>
    cases o2 with
    | err e =>
      refine ⟨[⟨mode, Phase.phOpen, s.clock + c1 - s.clock⟩], ?_, ?_⟩
      · simp [runner, runPhase]
      · simp
    | ok c2 =>
      refine ⟨[⟨mode, Phase.phOpen, s.clock + c1 - s.clock⟩,
               ⟨mode, Phase.phCompute, s.clock + c1 + c2 - (s.clock + c1)⟩],
              ?_, ?_⟩
      · simp [runner, runPhase]
      · simp

/-- C8: the emitter's grouped summary depends on the input sample
sequence alone: any two invocations on the same sequence return the
same summary whatever world state they start from, and calling the
emitter again on the world its own call produced changes nothing. -/
theorem emitter_pure (w1 w2 : EmitterWorld)
    (samples : List TimingSample) :
    (emit w1 samples).1 = (emit w2 samples).1 ∧
    (emit ((emit w1 samples).2) samples).1 = (emit w1 samples).1 ∧
    (emit w1 samples).1 = report samples := ⟨rfl, rfl, rfl⟩

/-- C4: resolving the unknown mode string turbo fails with
ConfigurationError before any network event is emitted; every unknown
mode string fails the same way rather than as a silent no-op, and an
unknown mode is the only condition under which the resolver errors. -/
theorem unknown_mode_fails_before_network :
    resolveThenConnect "turbo" notebookUrl =
      ([], Except.error (ConfigurationError.unknownMode "turbo")) ∧
    (∀ s url, parseMode s = none →
      resolveThenConnect s url =
        ([], Except.error (ConfigurationError.unknownMode s))) ∧
    (∀ s, (∃ e, resolveNamed s = Except.error e) ↔ parseMode s = none) := by
  refine ⟨rfl, ?_, ?_⟩
  · intro s url h
    simp [resolveThenConnect, resolveNamed, h]
  · intro s
    constructor
    · rintro ⟨e, he⟩
      cases hp : parseMode s with
      | none => rfl
      | some m => simp [resolveNamed, hp] at he
    · intro h
      exact ⟨ConfigurationError.unknownMode s, by simp [resolveNamed, h]⟩

/-- C4 witness at the string turbo. -/
theorem unknown_mode_fails_before_network_witness :
    resolveThenConnect "turbo" "https://example.com/a.tif" =
      ([], Except.error (ConfigurationError.unknownMode "turbo")) :=
  unknown_mode_fails_before_network.2.1 "turbo"
    "https://example.com/a.tif" (by decide)

end COG
